import Mathlib

/-!
Verification of the process orchestration core of the Any-code desktop app
(src-tauri/src/commands/claude/cli_runner.rs), shallowly embedded in Lean.
Stdout lines are modelled by the fields the router actually inspects;
side effects (registry calls, event emission, stdin writes, kill attempts)
are reified as explicit action traces.
-/

namespace AnyCode

/-- The token-usage object the router extracts from a JSON line
(`usage.input_tokens` etc., each via `as_u64`, hence an optional u64 value:
a natural below 2^64). -/
structure Usage where
  input_tokens : Option (Fin (2 ^ 64))
  output_tokens : Option (Fin (2 ^ 64))
  cache_creation_input_tokens : Option (Fin (2 ^ 64))
  cache_read_input_tokens : Option (Fin (2 ^ 64))
deriving DecidableEq, Repr

/-- The JSON envelope fields inspected by the stdout router: `msg["type"]`,
`msg["subtype"]` (string comparisons against "system"/"init"),
`msg["session_id"].as_str()`, and the optional `usage` object. -/
structure JsonMsg where
  typeField : Option String
  subtypeField : Option String
  session_id : Option String
  usage : Option Usage
deriving DecidableEq, Repr

/-- One stdout line: its raw text plus the result of the `serde_json` parse
(`none` when the line is not valid JSON). -/
structure Line where
  raw : String
  parsed : Option JsonMsg
deriving DecidableEq, Repr

/-- The per-run mutable state of the stdout router:
`session_id_holder` and `run_id_holder` from `spawn_claude_process`. -/
structure RouterState where
  session_id : Option String
  run_id : Option Int
deriving DecidableEq, Repr

/-- Observable side effects of the stdout/stderr/wait tasks, in program order. -/
inductive Action where
  | registerAutoCompact (sid : String)
  | registerSession (sid : String) (pid : Nat)
  | emitSessionStarted (sid : String) (pid : Nat) (runId : Int)
  | forwardUsage (sid : String) (total : Nat)
  | appendLive (runId : Int) (line : String)
  | emitOutputScoped (sid : String) (line : String)
  | emitOutputGeneric (line : String)
  | emitErrorScoped (sid : String) (line : String)
  | emitErrorGeneric (line : String)
  | emitSessionStopped (sid : String) (success : Bool)
  | emitCompleteScoped (sid : String) (success : Bool)
  | emitCompleteGeneric (success : Bool)
deriving DecidableEq, Repr

/-- Environment of the stdout task: whether the auto-compact collaborator is
installed, and the result `register_claude_session` returns for a given id. -/
structure RouterEnv where
  autoCompactAvailable : Bool
  registerResult : String → Except String Int

/-- The init-line test of the router: `msg["type"] == "system" &&
msg["subtype"] == "init"`, then `msg["session_id"].as_str()`. -/
def validInitSid (msg : JsonMsg) : Option String :=
  if msg.typeField = some "system" ∧ msg.subtypeField = some "init" then
    msg.session_id
  else none

/-- The init-classification branch of the stdout loop: on the first valid
init line it captures the session id, registers with the auto-compact
manager and the process registry, and (when registration succeeds) records
the run id and emits the `claude-session-state` started event. -/
def initPart (env : RouterEnv) (pid : Nat) (st : RouterState) (msg : JsonMsg) :
    RouterState × List Action :=
  match validInitSid msg with
  | some sid =>
    if st.session_id = none then
      let autoActs :=
        if env.autoCompactAvailable then [Action.registerAutoCompact sid] else []
      match env.registerResult sid with
      | Except.ok runId =>
          (⟨some sid, some runId⟩,
            autoActs ++ [Action.registerSession sid pid,
              Action.emitSessionStarted sid pid runId])
      | Except.error _ =>
          (⟨some sid, st.run_id⟩, autoActs ++ [Action.registerSession sid pid])
    else (st, [])
  | none => (st, [])

/-- The usage-classification branch: when the line carries a `usage` object
with numeric input/output token counts, the total
`(input_tokens + output_tokens) as usize` is forwarded to the auto-compact
collaborator for the captured session id (a no-op when no session id has
been captured or the collaborator is absent). The u64 addition wraps at
2^64 (release-build semantics); `as usize` is the identity on 64-bit. -/
def usagePart (env : RouterEnv) (st : RouterState) (msg : JsonMsg) : List Action :=
  match msg.usage with
  | some u =>
    match u.input_tokens, u.output_tokens with
    | some i, some o =>
      match st.session_id with
      | some sid =>
        if env.autoCompactAvailable then
          [Action.forwardUsage sid ((i.val + o.val) % 2 ^ 64)]
        else []
      | none => []
    | _, _ => []
  | none => []

/-- One iteration of the stdout-reader loop: classify the line (init branch
then usage branch), append to live output when a run id is known, emit the
session-scoped output event when a session id is known, then emit the
generic output event. -/
def processLine (env : RouterEnv) (pid : Nat) (st : RouterState) (l : Line) :
    RouterState × List Action :=
  let step :=
    match l.parsed with
    | some msg =>
        let stepInit := initPart env pid st msg
        (stepInit.1, stepInit.2 ++ usagePart env stepInit.1 msg)
    | none => (st, [])
  let appendActs :=
    match step.1.run_id with
    | some rid => [Action.appendLive rid l.raw]
    | none => []
  let scopedActs :=
    match step.1.session_id with
    | some sid => [Action.emitOutputScoped sid l.raw]
    | none => []
  (step.1, step.2 ++ appendActs ++ scopedActs ++ [Action.emitOutputGeneric l.raw])

/-- The whole stdout-reader task over a finite stream of lines. -/
def processLines (env : RouterEnv) (pid : Nat) (st : RouterState) :
    List Line → RouterState × List Action
  | [] => (st, [])
  | l :: ls =>
      let step := processLine env pid st l
      let rest := processLines env pid step.1 ls
      (rest.1, step.2 ++ rest.2)

/-- One iteration of the stderr-reader loop, given the session id it observes
in the shared holder at that moment. -/
def processErrLine (sidObserved : Option String) (l : String) : List Action :=
  (match sidObserved with
   | some sid => [Action.emitErrorScoped sid l]
   | none => []) ++ [Action.emitErrorGeneric l]

/-- The terminal notifications of the wait task after `child.wait()` returns:
session-scoped stopped/complete events when a session id was captured, then
the generic complete event. -/
def completionEvents (sid : Option String) (success : Bool) : List Action :=
  (match sid with
   | some s => [Action.emitSessionStopped s success,
       Action.emitCompleteScoped s success]
   | none => []) ++ [Action.emitCompleteGeneric success]

/-- Rust `char::is_whitespace`: the Unicode White_Space property —
U+0009..U+000D, U+0020, U+0085, U+00A0, U+1680, U+2000..U+200A, U+2028,
U+2029, U+202F, U+205F and U+3000. -/
def rustIsWhitespace (c : Char) : Bool :=
  let n := c.toNat
  (0x9 ≤ n && n ≤ 0xD) || n == 0x20 || n == 0x85 || n == 0xA0 ||
    n == 0x1680 || (0x2000 ≤ n && n ≤ 0x200A) || n == 0x2028 ||
    n == 0x2029 || n == 0x202F || n == 0x205F || n == 0x3000

/-- Rust `str::trim`: drop Unicode White_Space from both ends, modelled on
the character sequence of the string. -/
def rustTrim (s : String) : String :=
  String.mk
    (((s.data.dropWhile rustIsWhitespace).reverse.dropWhile rustIsWhitespace).reverse)

/-- Rust `str::starts_with('/')`: the first character is a slash. -/
def rustStartsWithSlash (s : String) : Bool :=
  match s.data with
  | c :: _ => c = '/'
  | [] => false

/-- Rust `str::contains('\n')`. -/
def rustContainsNewline (s : String) : Bool :=
  s.data.contains '\n'

/-- Rust `str::len`: the UTF-8 byte length of the string. -/
def rustByteLen (s : String) : Nat :=
  (s.data.map Char.utf8Size).sum

/-- `is_slash_command`: the prompt is passed as a `-p` launch argument exactly
when its trimmed form starts with a slash, has no embedded newline, and its
UTF-8 byte length (Rust `str::len`) is below 256. -/
def is_slash_command (prompt : String) : Bool :=
  let trimmed := rustTrim prompt
  rustStartsWithSlash trimmed && !(rustContainsNewline trimmed) &&
    rustByteLen trimmed < 256

/-- What the valid-init classifier yields on a whole line. -/
def isValidInit (l : Line) : Option String :=
  l.parsed.bind validInitSid

/-- Session id of the first line that classifies as a valid init line. -/
def firstInitSid (ls : List Line) : Option String :=
  (ls.filterMap isValidInit).head?

def isRegisterAct : Action → Bool
  | Action.registerSession _ _ => true
  | _ => false

def isStartedAct : Action → Bool
  | Action.emitSessionStarted _ _ _ => true
  | _ => false

/-- Actions the stdin-feeder task performs on the child's stdin pipe. -/
inductive StdinAction where
  | writeAll (s : String)
  | shutdown
deriving DecidableEq, Repr

/-- Environment of one call to `spawn_claude_process`: the result of
`cmd.spawn()` (the child's pid on success) and the stdout-task environment. -/
structure SpawnEnv where
  spawnResult : Except String Nat
  router : RouterEnv

/-- The observable outcome of one `spawn_claude_process` call: the extra
launch arguments added for a slash command, the stdin-feeder actions, the
pids killed out of the legacy slot before installing the new child, the slot
content afterwards, and the stdout task's trace and final state. -/
structure SpawnOutcome where
  extraArgs : List String
  stdinActs : List StdinAction
  preKill : List Nat
  slotAfter : Option Nat
  stdoutTrace : List Action
  finalState : RouterState

/-- `spawn_claude_process`: add `-p prompt` when the prompt is a slash
command; spawn (returning the error synchronously on failure, before any
state change or emission); otherwise feed stdin (write the prompt then close
it, or just close it in slash-command mode), kill any process already in the
legacy single slot and install the new child, and run the stdout router. -/
def spawn_claude_process (env : SpawnEnv) (slot : Option Nat) (prompt : String)
    (outLines : List Line) : Except String Unit × SpawnOutcome :=
  let useP := is_slash_command prompt
  let extraArgs := if useP then ["-p", prompt] else []
  match env.spawnResult with
  | Except.error e =>
      (Except.error ("Failed to spawn Claude: " ++ e),
        ⟨extraArgs, [], [], slot, [], ⟨none, none⟩⟩)
  | Except.ok pid =>
      let stdinActs :=
        if useP then [StdinAction.shutdown]
        else [StdinAction.writeAll prompt, StdinAction.shutdown]
      let preKill := slot.toList
      let run := processLines env.router pid ⟨none, none⟩ outLines
      (Except.ok (), ⟨extraArgs, stdinActs, preKill, some pid, run.2, run.1⟩)

/-- A kill error returned by the OS; the flag records whether the reason was
that the process had already exited. The source never inspects this flag. -/
structure KillError where
  alreadyExited : Bool
deriving DecidableEq, Repr

/-- The legacy-slot child as the cancellation coordinator sees it: its pid
(`child.id()`, absent once the child has been reaped) and what `kill()`
returns on it. -/
structure LegacyChild where
  pid : Option Nat
  killResult : Except KillError Unit

/-- A registry record as returned by `get_claude_session_by_id`. -/
structure ProcessInfo where
  run_id : Int
  pid : Nat
deriving DecidableEq, Repr

/-- Environment of one `cancel_claude_execution` call: the registry lookup
and kill results, the legacy slot content, and whether the platform
process-tree kill succeeds for a pid. -/
structure CancelEnv where
  registryLookup : String → Except String (Option ProcessInfo)
  registryKill : Int → Except String Bool
  legacySlot : Option LegacyChild
  platformKillOk : Nat → Bool

/-- One kill strategy attempted by the cancellation coordinator. -/
inductive Strategy where
  | registryKill (runId : Int)
  | legacyKill
  | osKill (pid : Nat)
deriving DecidableEq, Repr

/-- Events emitted by the cancellation coordinator. -/
inductive CEvent where
  | cancelledScoped (sid : String)
  | completeScoped (sid : String) (success : Bool)
  | cancelledGeneric
  | completeGeneric (success : Bool)
deriving DecidableEq, Repr

/-- The observable outcome of `cancel_claude_execution`. -/
structure CancelOutcome where
  killed : Bool
  strategies : List Strategy
  events : List CEvent
  result : Except String Unit

/-- Method 1 of the coordinator: when a session id was supplied and the
registry lookup finds a process, kill it via the registry; `killed` is true
only when that kill returns `Ok(true)`. -/
def registryTier (env : CancelEnv) (session_id : Option String) :
    Bool × List Strategy :=
  match session_id with
  | some sid =>
    match env.registryLookup sid with
    | Except.ok (some info) =>
      (match env.registryKill info.run_id with
       | Except.ok b => (b, [Strategy.registryKill info.run_id])
       | Except.error _ => (false, [Strategy.registryKill info.run_id]))
    | Except.ok none => (false, [])
    | Except.error _ => (false, [])
  | none => (false, [])

/-- Methods 2 and 3 of the coordinator: take the legacy-slot child and kill
it; only when that kill returns an error (of any kind) and the child's pid
is known, fall back to the platform process-tree kill. -/
def legacyTier (env : CancelEnv) : Bool × List Strategy :=
  match env.legacySlot with
  | some child =>
    match child.killResult with
    | Except.ok _ => (true, [Strategy.legacyKill])
    | Except.error _ =>
      match child.pid with
      | some pid =>
        (env.platformKillOk pid, [Strategy.legacyKill, Strategy.osKill pid])
      | none => (false, [Strategy.legacyKill])
  | none => (false, [])

/-- `cancel_claude_execution`: try the registry tier, then (only when it did
not report success) the legacy tier with its nested OS-kill fallback; always
emit the session-scoped cancelled/complete pair when a session id was given,
then the generic pair; always return `Ok`. -/
def cancel_claude_execution (env : CancelEnv) (session_id : Option String) :
    CancelOutcome :=
  let tier1 := registryTier env session_id
  let tier2 := if tier1.1 then (false, ([] : List Strategy)) else legacyTier env
  let events :=
    (match session_id with
     | some sid => [CEvent.cancelledScoped sid, CEvent.completeScoped sid false]
     | none => []) ++ [CEvent.cancelledGeneric, CEvent.completeGeneric false]
  ⟨tier1.1 || tier2.1, tier1.2 ++ tier2.2, events, Except.ok ()⟩

/-- The launch modes attempted by the resume command. -/
inductive LaunchMode where
  | resumeMode (sid : String)
  | continueMode
deriving DecidableEq, Repr

/-- Environment for the resume-fallback protocol: what
`spawn_claude_process` returns for the resume attempt and for the
continue attempt. -/
structure ResumeEnv where
  resumeSpawn : Except String Unit
  continueSpawn : Except String Unit

/-- Argument list of `resume_claude_code`: `--resume session_id` inserted in
front of the base execution arguments. -/
def resume_args (baseArgs : List String) (sid : String) : List String :=
  "--resume" :: sid :: baseArgs

/-- Argument list of `continue_claude_code`: `-c` inserted in front of the
base execution arguments. -/
def continue_args (baseArgs : List String) : List String :=
  "-c" :: baseArgs

/-- `continue_claude_code`: one spawn attempt in continue (`-c`) mode;
returns its result. -/
def continue_claude_code (env : ResumeEnv) : Except String Unit × List LaunchMode :=
  (env.continueSpawn, [LaunchMode.continueMode])

/-- `resume_claude_code`: try the resume spawn first; on error fall back to
`continue_claude_code` exactly once and surface that call's result. -/
def resume_claude_code (env : ResumeEnv) (sid : String) :
    Except String Unit × List LaunchMode :=
  match env.resumeSpawn with
  | Except.ok _ => (Except.ok (), [LaunchMode.resumeMode sid])
  | Except.error _ =>
      let fallback := continue_claude_code env
      (fallback.1, LaunchMode.resumeMode sid :: fallback.2)

/-- Modelled from the spec: a record of the ProcessRegistry
(`crate::process`, whose source is not among the provided files; only its
callers are). A run registered under a session id with its buffered live
output lines. -/
structure RegistryRecord where
  run_id : Int
  session_id : String
  live_output : List String
deriving DecidableEq, Repr

/-- Modelled from the spec: `get_claude_session_by_id` of the
ProcessRegistry — look up the run whose secondary index equals the given
session id. -/
def get_claude_session_by_id (reg : List RegistryRecord) (sid : String) :
    Option RegistryRecord :=
  reg.find? (fun r => r.session_id == sid)

/-- Modelled from the spec: `get_live_output` of the ProcessRegistry —
return the buffered lines of the run, or the empty string for an unknown
run id. -/
def get_live_output (reg : List RegistryRecord) (rid : Int) : String :=
  match reg.find? (fun r => r.run_id == rid) with
  | some r => String.intercalate "\n" r.live_output
  | none => ""

/-- `get_claude_session_output`: look the session up in the registry and
return its live output, or the empty string when the session is unknown. -/
def get_claude_session_output (reg : List RegistryRecord) (sid : String) : String :=
  match get_claude_session_by_id reg sid with
  | some r => get_live_output reg r.run_id
  | none => ""

/-- The 10,000-character prompt of property P4. -/
def longPrompt : String := String.mk (List.replicate 10000 'x')

/-- A concrete router environment used for evaluations. -/
def stdEnv : RouterEnv := ⟨true, fun _ => Except.ok 1⟩

/-! Helper lemmas about the router. -/

theorem usagePart_anon (env : RouterEnv) (st : RouterState) (msg : JsonMsg)
    (h : st.session_id = none) : usagePart env st msg = [] := by
  unfold usagePart
  rcases msg.usage with _ | u
  · rfl
  · obtain ⟨ui, uo, uc, ur⟩ := u
    cases ui <;> cases uo <;> simp [h]

theorem usagePart_no_promo (env : RouterEnv) (st : RouterState) (msg : JsonMsg) :
    (usagePart env st msg).filter isRegisterAct = [] ∧
    (usagePart env st msg).filter isStartedAct = [] := by
  unfold usagePart
  rcases msg.usage with _ | u
  · simp
  · obtain ⟨ui, uo, uc, ur⟩ := u
    cases ui <;> cases uo <;>
      rcases h : st.session_id with _ | sid <;>
      cases henv : env.autoCompactAvailable <;>
      simp [h, henv, isRegisterAct, isStartedAct]

theorem processLine_session_some (env : RouterEnv) (pid : Nat) (st : RouterState)
    (l : Line) (s : String) (h : st.session_id = some s) :
    (processLine env pid st l).1 = st ∧
    (processLine env pid st l).2.filter isRegisterAct = [] ∧
    (processLine env pid st l).2.filter isStartedAct = [] := by
  obtain ⟨raw, parsed⟩ := l
  cases parsed with
  | none =>
    refine ⟨rfl, ?_, ?_⟩ <;>
      rcases hr : st.run_id with _ | rid <;>
        simp [processLine, h, hr, isRegisterAct, isStartedAct]
  | some msg =>
    have hinit : initPart env pid st msg = (st, []) := by
      unfold initPart
      rcases hv : validInitSid msg with _ | sid
      · rfl
      · simp [h]
    obtain ⟨hu1, hu2⟩ := usagePart_no_promo env st msg
    refine ⟨?_, ?_, ?_⟩ <;>
      rcases hr : st.run_id with _ | rid <;>
        simp [processLine, hinit, h, hr, List.filter_append, hu1, hu2,
          isRegisterAct, isStartedAct]

theorem router_sticky (env : RouterEnv) (pid : Nat) (ls : List Line)
    (st : RouterState) (s : String) (h : st.session_id = some s) :
    (processLines env pid st ls).1 = st ∧
    (processLines env pid st ls).2.filter isRegisterAct = [] ∧
    (processLines env pid st ls).2.filter isStartedAct = [] := by
  induction ls generalizing st with
  | nil => simp [processLines]
  | cons l ls ih =>
    obtain ⟨h1, h2, h3⟩ := processLine_session_some env pid st l s h
    obtain ⟨h4, h5, h6⟩ := ih (processLine env pid st l).1 (by rw [h1, h])
    rw [h1] at h4 h5 h6
    simp [processLines, List.filter_append, h1, h2, h3, h4, h5, h6]

theorem processLine_noinit_none (env : RouterEnv) (pid : Nat) (rid : Option Int)
    (l : Line) (hv : isValidInit l = none) :
    (processLine env pid ⟨none, rid⟩ l).1 = ⟨none, rid⟩ ∧
    (processLine env pid ⟨none, rid⟩ l).2.filter isRegisterAct = [] ∧
    (processLine env pid ⟨none, rid⟩ l).2.filter isStartedAct = [] := by
  obtain ⟨raw, parsed⟩ := l
  cases parsed with
  | none =>
    refine ⟨rfl, ?_, ?_⟩ <;>
      rcases rid with _ | rid <;> simp [processLine, isRegisterAct, isStartedAct]
  | some msg =>
    have hvm : validInitSid msg = none := by simpa [isValidInit] using hv
    have hinit : initPart env pid ⟨none, rid⟩ msg = (⟨none, rid⟩, []) := by
      unfold initPart
      rw [hvm]
    have hu : usagePart env (⟨none, rid⟩ : RouterState) msg = [] :=
      usagePart_anon env _ msg rfl
    refine ⟨?_, ?_, ?_⟩ <;>
      rcases rid with _ | rid <;>
        simp [processLine, hinit, hu, isRegisterAct, isStartedAct]

theorem processLine_capture_ok (env : RouterEnv) (pid : Nat) (rid : Option Int)
    (l : Line) (sid : String) (r : Int) (hv : isValidInit l = some sid)
    (hr : env.registerResult sid = Except.ok r) :
    (processLine env pid ⟨none, rid⟩ l).1 = ⟨some sid, some r⟩ ∧
    (processLine env pid ⟨none, rid⟩ l).2.filter isRegisterAct =
      [Action.registerSession sid pid] ∧
    (processLine env pid ⟨none, rid⟩ l).2.filter isStartedAct =
      [Action.emitSessionStarted sid pid r] := by
  obtain ⟨raw, parsed⟩ := l
  cases parsed with
  | none => simp [isValidInit] at hv
  | some msg =>
    have hvm : validInitSid msg = some sid := by simpa [isValidInit] using hv
    have hinit : initPart env pid ⟨none, rid⟩ msg =
        (⟨some sid, some r⟩,
          (if env.autoCompactAvailable then [Action.registerAutoCompact sid] else [])
            ++ [Action.registerSession sid pid,
                Action.emitSessionStarted sid pid r]) := by
      unfold initPart
      rw [hvm]
      simp [hr]
    obtain ⟨hu1, hu2⟩ := usagePart_no_promo env ⟨some sid, some r⟩ msg
    refine ⟨?_, ?_, ?_⟩ <;>
      cases henv : env.autoCompactAvailable <;>
        simp [processLine, hinit, henv, List.filter_append, hu1, hu2,
          isRegisterAct, isStartedAct]

theorem processLine_capture_err (env : RouterEnv) (pid : Nat) (rid : Option Int)
    (l : Line) (sid : String) (e : String) (hv : isValidInit l = some sid)
    (hr : env.registerResult sid = Except.error e) :
    (processLine env pid ⟨none, rid⟩ l).1 = ⟨some sid, rid⟩ ∧
    (processLine env pid ⟨none, rid⟩ l).2.filter isRegisterAct =
      [Action.registerSession sid pid] ∧
    (processLine env pid ⟨none, rid⟩ l).2.filter isStartedAct = [] := by
  obtain ⟨raw, parsed⟩ := l
  cases parsed with
  | none => simp [isValidInit] at hv
  | some msg =>
    have hvm : validInitSid msg = some sid := by simpa [isValidInit] using hv
    have hinit : initPart env pid ⟨none, rid⟩ msg =
        (⟨some sid, rid⟩,
          (if env.autoCompactAvailable then [Action.registerAutoCompact sid] else [])
            ++ [Action.registerSession sid pid]) := by
      unfold initPart
      rw [hvm]
      simp [hr]
    obtain ⟨hu1, hu2⟩ := usagePart_no_promo env ⟨some sid, rid⟩ msg
    refine ⟨?_, ?_, ?_⟩ <;>
      cases henv : env.autoCompactAvailable <;>
        rcases rid with _ | rid <;>
          simp [processLine, hinit, henv, List.filter_append, hu1, hu2,
            isRegisterAct, isStartedAct]

theorem firstInitSid_cons_none (l : Line) (ls : List Line)
    (h : isValidInit l = none) : firstInitSid (l :: ls) = firstInitSid ls := by
  simp [firstInitSid, List.filterMap_cons, h]

theorem firstInitSid_cons_some (l : Line) (ls : List Line) (sid : String)
    (h : isValidInit l = some sid) : firstInitSid (l :: ls) = some sid := by
  simp [firstInitSid, List.filterMap_cons, h]

theorem router_promote (env : RouterEnv) (pid : Nat) (ls : List Line)
    (rid : Option Int) :
    ((processLines env pid ⟨none, rid⟩ ls).1.session_id = firstInitSid ls) ∧
    ((processLines env pid ⟨none, rid⟩ ls).2.filter isRegisterAct =
      (match firstInitSid ls with
       | some sid => [Action.registerSession sid pid]
       | none => [])) ∧
    ((processLines env pid ⟨none, rid⟩ ls).2.filter isStartedAct =
      (match firstInitSid ls with
       | some sid =>
         (match env.registerResult sid with
          | Except.ok r => [Action.emitSessionStarted sid pid r]
          | Except.error _ => [])
       | none => [])) := by
  induction ls generalizing rid with
  | nil => simp [processLines, firstInitSid]
  | cons l ls ih =>
    cases hv : isValidInit l with
    | none =>
      obtain ⟨h1, h2, h3⟩ := processLine_noinit_none env pid rid l hv
      obtain ⟨h4, h5, h6⟩ := ih rid
      rw [firstInitSid_cons_none l ls hv]
      refine ⟨?_, ?_, ?_⟩ <;>
        simp [processLines, List.filter_append, h1, h2, h3, h4, h5, h6]
    | some sid =>
      rw [firstInitSid_cons_some l ls sid hv]
      rcases hr : env.registerResult sid with r | r
      · obtain ⟨h1, h2, h3⟩ := processLine_capture_err env pid rid l sid r hv hr
        obtain ⟨h4, h5, h6⟩ :=
          router_sticky env pid ls (processLine env pid ⟨none, rid⟩ l).1 sid
            (by rw [h1])
        rw [h1] at h4 h5 h6
        refine ⟨?_, ?_, ?_⟩ <;>
          simp [processLines, List.filter_append, h1, h2, h3, h4, h5, h6, hr]
      · obtain ⟨h1, h2, h3⟩ := processLine_capture_ok env pid rid l sid r hv hr
        obtain ⟨h4, h5, h6⟩ :=
          router_sticky env pid ls (processLine env pid ⟨none, rid⟩ l).1 sid
            (by rw [h1])
        rw [h1] at h4 h5 h6
        refine ⟨?_, ?_, ?_⟩ <;>
          simp [processLines, List.filter_append, h1, h2, h3, h4, h5, h6, hr]

theorem processLine_state (env : RouterEnv) (pid : Nat) (st : RouterState)
    (l : Line) :
    (processLine env pid st l).1 =
      (match l.parsed with
       | some msg => (initPart env pid st msg).1
       | none => st) := by
  obtain ⟨raw, parsed⟩ := l
  cases parsed <;> rfl

theorem processLine_trace (env : RouterEnv) (pid : Nat) (st : RouterState)
    (l : Line) :
    (processLine env pid st l).2 =
      (match l.parsed with
       | some msg =>
         (initPart env pid st msg).2 ++ usagePart env (initPart env pid st msg).1 msg
       | none => []) ++
      (match (processLine env pid st l).1.run_id with
       | some rid => [Action.appendLive rid l.raw]
       | none => []) ++
      (match (processLine env pid st l).1.session_id with
       | some sid => [Action.emitOutputScoped sid l.raw]
       | none => []) ++
      [Action.emitOutputGeneric l.raw] := by
  obtain ⟨raw, parsed⟩ := l
  cases parsed <;> rfl

theorem initPart_no_forward (env : RouterEnv) (pid : Nat) (st : RouterState)
    (msg : JsonMsg) (sid : String) (t : Nat) :
    Action.forwardUsage sid t ∉ (initPart env pid st msg).2 := by
  unfold initPart
  rcases hv : validInitSid msg with _ | s
  · simp
  · by_cases hs : st.session_id = none
    · rcases hr : env.registerResult s with e | r <;>
        cases henv : env.autoCompactAvailable <;> simp [hs, hr, henv]
    · simp [hs]

theorem usagePart_forward (env : RouterEnv) (st : RouterState) (msg : JsonMsg)
    (sid : String) (t : Nat)
    (h : Action.forwardUsage sid t ∈ usagePart env st msg) :
    st.session_id = some sid ∧ env.autoCompactAvailable = true ∧
    ∃ u i o, msg.usage = some u ∧ u.input_tokens = some i ∧
      u.output_tokens = some o ∧ t = (i.val + o.val) % 2 ^ 64 := by
  unfold usagePart at h
  rcases hu : msg.usage with _ | u
  · rw [hu] at h
    simp at h
  · rw [hu] at h
    obtain ⟨ui, uo, uc, ur⟩ := u
    rcases hi : ui with _ | i <;> rcases ho : uo with _ | o <;>
      rw [hi, ho] at h <;> simp at h
    rcases hs : st.session_id with _ | s
    · rw [hs] at h
      simp at h
    · rw [hs] at h
      cases henv : env.autoCompactAvailable <;> rw [henv] at h <;> simp at h
      obtain ⟨h1, h2⟩ := h
      exact ⟨by simp_all, rfl, ⟨some i, some o, uc, ur⟩, i, o, by simp_all, rfl,
        rfl, by simp_all⟩

theorem forward_mem_processLine (env : RouterEnv) (pid : Nat) (st : RouterState)
    (l : Line) (sid : String) (t : Nat) :
    Action.forwardUsage sid t ∈ (processLine env pid st l).2 ↔
    ∃ msg, l.parsed = some msg ∧
      Action.forwardUsage sid t ∈ usagePart env (initPart env pid st msg).1 msg := by
  obtain ⟨raw, parsed⟩ := l
  cases parsed with
  | none =>
    constructor
    · intro h
      exfalso
      rw [processLine_trace] at h
      rcases hr : (processLine env pid st ⟨raw, none⟩).1.run_id with _ | rid <;>
        rcases hs : (processLine env pid st ⟨raw, none⟩).1.session_id with _ | s <;>
        rw [hr, hs] at h <;> simp at h
    · rintro ⟨msg, hmsg, _⟩
      simp at hmsg
  | some msg =>
    constructor
    · intro h
      refine ⟨msg, rfl, ?_⟩
      rw [processLine_trace] at h
      rcases List.mem_append.mp h with h | h
      · rcases List.mem_append.mp h with h | h
        · rcases List.mem_append.mp h with h | h
          · rcases List.mem_append.mp h with h | h
            · exact absurd h (initPart_no_forward env pid st msg sid t)
            · exact h
          · rcases hr : (processLine env pid st ⟨raw, some msg⟩).1.run_id
              with _ | rid <;> rw [hr] at h <;> simp at h
        · rcases hs : (processLine env pid st ⟨raw, some msg⟩).1.session_id
            with _ | s <;> rw [hs] at h <;> simp at h
      · simp at h
    · rintro ⟨msg2, hmsg, h⟩
      have hm : msg2 = msg := by
        simpa using hmsg.symm
      subst hm
      rw [processLine_trace]
      refine List.mem_append.mpr (Or.inl ?_)
      refine List.mem_append.mpr (Or.inl ?_)
      refine List.mem_append.mpr (Or.inl ?_)
      exact List.mem_append.mpr (Or.inr h)

/-- A concrete stdout line carrying a usage object with 10 input and 5
output tokens. -/
def usageLine1055 : Line :=
  ⟨"usage", some ⟨none, none, none,
    some ⟨some ⟨10, by decide⟩, some ⟨5, by decide⟩, none, none⟩⟩⟩

/-- A concrete stdout line whose usage object carries
input_tokens = 2^64 - 1 and output_tokens = 1, both valid u64 values that
serde's `as_u64` accepts. -/
def usageLineWrap : Line :=
  ⟨"usage", some ⟨none, none, none,
    some ⟨some ⟨2 ^ 64 - 1, by norm_num⟩, some ⟨1, by norm_num⟩, none, none⟩⟩⟩

/-- C1: for any run, the session id captured by the stdout router equals the
session id of the first line that parses as JSON with type "system", subtype
"init" and a string session id; the registry-registration call and the
session-started notification happen exactly once, for that first init line
(the notification only when registration succeeds), and later init lines are
ignored. -/
theorem single_promotion_c1 (env : RouterEnv) (pid : Nat) (ls : List Line) :
    ((processLines env pid ⟨none, none⟩ ls).1.session_id = firstInitSid ls) ∧
    ((processLines env pid ⟨none, none⟩ ls).2.filter isRegisterAct =
      (match firstInitSid ls with
       | some sid => [Action.registerSession sid pid]
       | none => [])) ∧
    ((processLines env pid ⟨none, none⟩ ls).2.filter isStartedAct =
      (match firstInitSid ls with
       | some sid =>
         (match env.registerResult sid with
          | Except.ok r => [Action.emitSessionStarted sid pid r]
          | Except.error _ => [])
       | none => [])) :=
  router_promote env pid ls none

/-- C7 counterexample: with input_tokens = 2^64 - 1 and output_tokens = 1
the u64 sum wraps: the router forwards total 0, not the exact sum
input_tokens + output_tokens = 2^64, against the claim that the forwarded
total always equals input_tokens + output_tokens. -/
theorem usage_wrap_c7_counterexample :
    (processLine stdEnv 7 ⟨some "abc", some 1⟩ usageLineWrap).2 =
      [Action.forwardUsage "abc" 0, Action.appendLive 1 "usage",
       Action.emitOutputScoped "abc" "usage",
       Action.emitOutputGeneric "usage"] ∧
    (2 ^ 64 - 1) + 1 ≠ (0 : Nat) := by
  constructor
  · decide
  · decide

/-- C7 (amended): whenever the router forwards a token total to the
usage-accounting collaborator, the total equals
(input_tokens + output_tokens) mod 2^64 of a usage object on that line —
the u64 addition wraps, so the total is the exact sum whenever that sum
fits in 64 bits, in particular 10 input and 5 output tokens forward 15 —
and a session id had already been captured by the time the usage branch
ran; conversely a captured session id with the collaborator available
always forwards that wrapped total. -/
theorem usage_forwarding_c7 :
    (∀ (env : RouterEnv) (pid : Nat) (st : RouterState) (l : Line)
        (sid : String) (total : Nat),
        Action.forwardUsage sid total ∈ (processLine env pid st l).2 →
        ∃ msg u i o, l.parsed = some msg ∧ msg.usage = some u ∧
          u.input_tokens = some i ∧ u.output_tokens = some o ∧
          total = (i.val + o.val) % 2 ^ 64 ∧
          (initPart env pid st msg).1.session_id = some sid) ∧
    (∀ (env : RouterEnv) (pid : Nat) (st : RouterState) (l : Line)
        (msg : JsonMsg) (u : Usage) (i o : Fin (2 ^ 64)) (sid : String),
        l.parsed = some msg → msg.usage = some u → u.input_tokens = some i →
        u.output_tokens = some o →
        (initPart env pid st msg).1.session_id = some sid →
        env.autoCompactAvailable = true →
        Action.forwardUsage sid ((i.val + o.val) % 2 ^ 64) ∈
          (processLine env pid st l).2) ∧
    Action.forwardUsage "abc" 15 ∈
      (processLine stdEnv 7 ⟨some "abc", some 1⟩ usageLine1055).2 := by
  refine ⟨?_, ?_, ?_⟩
  · intro env pid st l sid total h
    obtain ⟨msg, hmsg, hmem⟩ :=
      (forward_mem_processLine env pid st l sid total).mp h
    obtain ⟨hsess, henv, u, i, o, hu, hi, ho, ht⟩ :=
      usagePart_forward env _ msg sid total hmem
    exact ⟨msg, u, i, o, hmsg, hu, hi, ho, ht, hsess⟩
  · intro env pid st l msg u i o sid hp hu hi ho hsess henv
    refine (forward_mem_processLine env pid st l sid
      ((i.val + o.val) % 2 ^ 64)).mpr ⟨msg, hp, ?_⟩
    unfold usagePart
    simp [hu, hi, ho, hsess, henv]
  · decide

/-- Witness: the forwarded total 15 at the concrete usage line decomposes as
(10 + 5) mod 2^64 with the session id captured. -/
theorem usage_forwarding_c7_witness :
    ∃ msg u i o, usageLine1055.parsed = some msg ∧ msg.usage = some u ∧
      u.input_tokens = some i ∧ u.output_tokens = some o ∧
      15 = (i.val + o.val) % 2 ^ 64 ∧
      (initPart stdEnv 7 ⟨some "abc", some 1⟩ msg).1.session_id = some "abc" :=
  usage_forwarding_c7.1 stdEnv 7 ⟨some "abc", some 1⟩ usageLine1055 "abc" 15
    (by decide)

/-- The payload of a generic output event. -/
def genericPayload : Action → Option String
  | Action.emitOutputGeneric s => some s
  | _ => none

/-- The payload of a live-output append. -/
def appendPayload : Action → Option String
  | Action.appendLive _ s => some s
  | _ => none

/-- The payload of a session-scoped output event. -/
def scopedPayload : Action → Option String
  | Action.emitOutputScoped _ s => some s
  | _ => none

/-- The classification actions of one line (init branch then usage branch). -/
def classActs (env : RouterEnv) (pid : Nat) (st : RouterState) (l : Line) :
    List Action :=
  match l.parsed with
  | some msg =>
    (initPart env pid st msg).2 ++ usagePart env (initPart env pid st msg).1 msg
  | none => []

theorem initPart_payload_none (env : RouterEnv) (pid : Nat) (st : RouterState)
    (msg : JsonMsg) :
    ∀ a ∈ (initPart env pid st msg).2,
      genericPayload a = none ∧ appendPayload a = none ∧ scopedPayload a = none := by
  unfold initPart
  rcases hv : validInitSid msg with _ | s
  · simp
  · by_cases hs : st.session_id = none
    · rcases hr : env.registerResult s with e | r <;>
        cases henv : env.autoCompactAvailable <;>
          simp [hs, hr, henv, genericPayload, appendPayload, scopedPayload]
    · simp [hs]

theorem usagePart_payload_none (env : RouterEnv) (st : RouterState)
    (msg : JsonMsg) :
    ∀ a ∈ usagePart env st msg,
      genericPayload a = none ∧ appendPayload a = none ∧ scopedPayload a = none := by
  unfold usagePart
  rcases msg.usage with _ | u
  · simp
  · obtain ⟨ui, uo, uc, ur⟩ := u
    cases ui <;> cases uo <;> rcases h : st.session_id with _ | s <;>
      cases henv : env.autoCompactAvailable <;>
        simp [h, henv, genericPayload, appendPayload, scopedPayload]

theorem classActs_payload_none (env : RouterEnv) (pid : Nat) (st : RouterState)
    (l : Line) :
    ∀ a ∈ classActs env pid st l,
      genericPayload a = none ∧ appendPayload a = none ∧ scopedPayload a = none := by
  unfold classActs
  obtain ⟨raw, parsed⟩ := l
  cases parsed with
  | none => simp
  | some msg =>
    intro a ha
    rcases List.mem_append.mp ha with h | h
    · exact initPart_payload_none env pid st msg a h
    · exact usagePart_payload_none env _ msg a h

theorem processLine_trace2 (env : RouterEnv) (pid : Nat) (st : RouterState)
    (l : Line) :
    (processLine env pid st l).2 =
      classActs env pid st l ++
      (match (processLine env pid st l).1.run_id with
       | some rid => [Action.appendLive rid l.raw]
       | none => []) ++
      (match (processLine env pid st l).1.session_id with
       | some sid => [Action.emitOutputScoped sid l.raw]
       | none => []) ++
      [Action.emitOutputGeneric l.raw] := by
  obtain ⟨raw, parsed⟩ := l
  cases parsed <;> rfl

theorem processLine_generic_payload (env : RouterEnv) (pid : Nat)
    (st : RouterState) (l : Line) :
    (processLine env pid st l).2.filterMap genericPayload = [l.raw] := by
  rw [processLine_trace2]
  simp only [List.filterMap_append]
  have h1 : (classActs env pid st l).filterMap genericPayload = [] := by
    rw [List.filterMap_eq_nil_iff]
    intro a ha
    exact (classActs_payload_none env pid st l a ha).1
  rw [h1]
  rcases hr : (processLine env pid st l).1.run_id with _ | rid <;>
    rcases hs : (processLine env pid st l).1.session_id with _ | s <;>
      simp [genericPayload, appendPayload, scopedPayload]

theorem processLine_append_payload (env : RouterEnv) (pid : Nat)
    (st : RouterState) (l : Line) :
    (processLine env pid st l).2.filterMap appendPayload = [] ∨
    (processLine env pid st l).2.filterMap appendPayload = [l.raw] := by
  rw [processLine_trace2]
  simp only [List.filterMap_append]
  have h1 : (classActs env pid st l).filterMap appendPayload = [] := by
    rw [List.filterMap_eq_nil_iff]
    intro a ha
    exact (classActs_payload_none env pid st l a ha).2.1
  rw [h1]
  rcases hr : (processLine env pid st l).1.run_id with _ | rid <;>
    rcases hs : (processLine env pid st l).1.session_id with _ | s <;>
      simp [genericPayload, appendPayload, scopedPayload]

theorem processLine_scoped_payload (env : RouterEnv) (pid : Nat)
    (st : RouterState) (l : Line) :
    (processLine env pid st l).2.filterMap scopedPayload = [] ∨
    (processLine env pid st l).2.filterMap scopedPayload = [l.raw] := by
  rw [processLine_trace2]
  simp only [List.filterMap_append]
  have h1 : (classActs env pid st l).filterMap scopedPayload = [] := by
    rw [List.filterMap_eq_nil_iff]
    intro a ha
    exact (classActs_payload_none env pid st l a ha).2.2
  rw [h1]
  rcases hr : (processLine env pid st l).1.run_id with _ | rid <;>
    rcases hs : (processLine env pid st l).1.session_id with _ | s <;>
      simp [genericPayload, appendPayload, scopedPayload]

theorem processLines_generic_payload (env : RouterEnv) (pid : Nat)
    (st : RouterState) (ls : List Line) :
    (processLines env pid st ls).2.filterMap genericPayload = ls.map Line.raw := by
  induction ls generalizing st with
  | nil => simp [processLines]
  | cons l ls ih =>
    simp [processLines, List.filterMap_append, processLine_generic_payload,
      ih (processLine env pid st l).1]

theorem processLines_append_payload (env : RouterEnv) (pid : Nat)
    (st : RouterState) (ls : List Line) :
    ((processLines env pid st ls).2.filterMap appendPayload).Sublist
      (ls.map Line.raw) := by
  induction ls generalizing st with
  | nil => simp [processLines]
  | cons l ls ih =>
    have hsub := ih (processLine env pid st l).1
    rcases processLine_append_payload env pid st l with h | h <;>
      simp only [processLines, List.map_cons, List.filterMap_append, h,
        List.nil_append, List.singleton_append]
    · exact hsub.trans (List.sublist_cons_self l.raw (ls.map Line.raw))
    · exact hsub.cons₂ l.raw

theorem processLines_scoped_payload (env : RouterEnv) (pid : Nat)
    (st : RouterState) (ls : List Line) :
    ((processLines env pid st ls).2.filterMap scopedPayload).Sublist
      (ls.map Line.raw) := by
  induction ls generalizing st with
  | nil => simp [processLines]
  | cons l ls ih =>
    have hsub := ih (processLine env pid st l).1
    rcases processLine_scoped_payload env pid st l with h | h <;>
      simp only [processLines, List.map_cons, List.filterMap_append, h,
        List.nil_append, List.singleton_append]
    · exact hsub.trans (List.sublist_cons_self l.raw (ls.map Line.raw))
    · exact hsub.cons₂ l.raw

/-- C8 counterexample: a first stdout line that is not an init line is
emitted only on the generic event name: the whole trace of the run is the
one generic output event, with no session-scoped emission at all, against
the claim that every line goes out on both names. -/
theorem output_emit_c8_counterexample :
    (processLines stdEnv 1 ⟨none, none⟩ [⟨"hello", none⟩]).2 =
      [Action.emitOutputGeneric "hello"] := by
  decide

/-- C8 (amended): every stdout line yields, after its classification actions
(which emit nothing), the live-output append when a run id is known, then the
session-scoped output event when a session id is known, then always the
generic output event, in that order; over a whole run the generic events
carry exactly the lines in order, and the live-output buffer and the
session-scoped events are order-preserving sublists of the lines. -/
theorem output_order_c8 :
    (∀ (env : RouterEnv) (pid : Nat) (st : RouterState) (l : Line),
      ∃ pre,
        (∀ a ∈ pre, genericPayload a = none ∧ appendPayload a = none ∧
          scopedPayload a = none) ∧
        (processLine env pid st l).2 = pre ++
          (match (processLine env pid st l).1.run_id with
           | some rid => [Action.appendLive rid l.raw]
           | none => []) ++
          (match (processLine env pid st l).1.session_id with
           | some sid => [Action.emitOutputScoped sid l.raw]
           | none => []) ++
          [Action.emitOutputGeneric l.raw]) ∧
    (∀ (env : RouterEnv) (pid : Nat) (st : RouterState) (ls : List Line),
      ((processLines env pid st ls).2.filterMap genericPayload =
        ls.map Line.raw) ∧
      ((processLines env pid st ls).2.filterMap appendPayload).Sublist
        (ls.map Line.raw) ∧
      ((processLines env pid st ls).2.filterMap scopedPayload).Sublist
        (ls.map Line.raw)) := by
  constructor
  · intro env pid st l
    exact ⟨classActs env pid st l, classActs_payload_none env pid st l,
      processLine_trace2 env pid st l⟩
  · intro env pid st ls
    exact ⟨processLines_generic_payload env pid st ls,
      processLines_append_payload env pid st ls,
      processLines_scoped_payload env pid st ls⟩

/-- Witness: on a concrete two-line run the generic output events are
exactly the two raw lines in order. -/
theorem output_order_c8_witness :
    (processLines stdEnv 1 ⟨none, none⟩
        [⟨"a", none⟩, ⟨"b", none⟩]).2.filterMap genericPayload = ["a", "b"] := by
  have h := (output_order_c8.2 stdEnv 1 ⟨none, none⟩ [⟨"a", none⟩, ⟨"b", none⟩]).1
  simpa using h

theorem processLine_anon (env : RouterEnv) (pid : Nat) (l : Line)
    (hv : isValidInit l = none) :
    processLine env pid ⟨none, none⟩ l =
      (⟨none, none⟩, [Action.emitOutputGeneric l.raw]) := by
  obtain ⟨raw, parsed⟩ := l
  cases parsed with
  | none => rfl
  | some msg =>
    have hvm : validInitSid msg = none := by simpa [isValidInit] using hv
    have hinit : initPart env pid ⟨none, none⟩ msg = (⟨none, none⟩, []) := by
      unfold initPart
      rw [hvm]
    have hu : usagePart env (⟨none, none⟩ : RouterState) msg = [] :=
      usagePart_anon env _ msg rfl
    simp [processLine, hinit, hu]

theorem router_noinit (env : RouterEnv) (pid : Nat) (ls : List Line)
    (h : ∀ l ∈ ls, isValidInit l = none) :
    (processLines env pid ⟨none, none⟩ ls).1 = ⟨none, none⟩ ∧
    (processLines env pid ⟨none, none⟩ ls).2 =
      ls.map (fun l => Action.emitOutputGeneric l.raw) := by
  induction ls with
  | nil => simp [processLines]
  | cons l ls ih =>
    have hl := processLine_anon env pid l (h l (by simp))
    obtain ⟨h1, h2⟩ := ih (fun x hx => h x (by simp [hx]))
    simp [processLines, hl, h1, h2]

/-- A pair of concrete stdout lines with no valid init line among them: a
non-JSON line and a JSON line with type system but no init subtype. -/
def anonLines : List Line :=
  [⟨"hello", none⟩, ⟨"sys", some ⟨some "system", none, some "zz", none⟩⟩]

/-- C10: for a run whose child never emits a valid init line, the router
state never leaves the anonymous state (for the whole run and every prefix
of it), the whole stdout trace consists only of generic output events (in
particular no registration and no session-scoped event occurs), stderr and
completion events are generic only, and querying live output by any session
id against a registry that never registered the run returns the empty
string. -/
theorem no_init_run_c10 (env : RouterEnv) (pid : Nat) (ls : List Line)
    (success : Bool) (sid : String)
    (h : ∀ l ∈ ls, isValidInit l = none) :
    (processLines env pid ⟨none, none⟩ ls).1 = ⟨none, none⟩ ∧
    (processLines env pid ⟨none, none⟩ ls).2 =
      ls.map (fun l => Action.emitOutputGeneric l.raw) ∧
    (∀ pre, pre <+: ls →
      (processLines env pid ⟨none, none⟩ pre).1 = ⟨none, none⟩) ∧
    (∀ e : String,
      processErrLine (processLines env pid ⟨none, none⟩ ls).1.session_id e =
        [Action.emitErrorGeneric e]) ∧
    completionEvents (processLines env pid ⟨none, none⟩ ls).1.session_id success =
      [Action.emitCompleteGeneric success] ∧
    get_claude_session_output [] sid = "" := by
  obtain ⟨h1, h2⟩ := router_noinit env pid ls h
  refine ⟨h1, h2, ?_, ?_, ?_, rfl⟩
  · intro pre hpre
    exact (router_noinit env pid pre (fun x hx => h x (hpre.subset hx))).1
  · intro e
    rw [h1]
    rfl
  · rw [h1]
    rfl

/-- Witness: the anonymous run on two concrete non-init lines stays
unidentified, its stderr event is generic only, and the live-output query
returns the empty string. -/
theorem no_init_run_c10_witness :
    (processLines stdEnv 3 ⟨none, none⟩ anonLines).1 = ⟨none, none⟩ ∧
    processErrLine
        (processLines stdEnv 3 ⟨none, none⟩ anonLines).1.session_id "oops" =
      [Action.emitErrorGeneric "oops"] ∧
    get_claude_session_output [] "abc" = "" :=
  ⟨(no_init_run_c10 stdEnv 3 anonLines true "abc" (by decide)).1,
   (no_init_run_c10 stdEnv 3 anonLines true "abc" (by decide)).2.2.2.1 "oops",
   (no_init_run_c10 stdEnv 3 anonLines true "abc" (by decide)).2.2.2.2.2⟩

theorem is_slash_command_iff (p : String) :
    is_slash_command p = true ↔
      (rustStartsWithSlash (rustTrim p) = true ∧
       rustContainsNewline (rustTrim p) = false ∧
       rustByteLen (rustTrim p) < 256) := by
  unfold is_slash_command
  simp [Bool.and_eq_true, Bool.not_eq_true', decide_eq_true_iff]
  exact and_assoc

theorem dropWhile_replicate_x :
    List.dropWhile rustIsWhitespace (List.replicate 10000 'x') =
      List.replicate 10000 'x' := by
  conv_lhs => rw [show (10000 : Nat) = 9999 + 1 from rfl, List.replicate_succ]
  rw [List.dropWhile_cons, if_neg (by decide)]
  rw [← List.replicate_succ]

theorem rustTrim_longPrompt : rustTrim longPrompt = longPrompt := by
  show String.mk _ = _
  rw [show longPrompt.data = List.replicate 10000 'x' from rfl]
  rw [dropWhile_replicate_x, List.reverse_replicate, dropWhile_replicate_x,
    List.reverse_replicate]
  rfl

theorem longPrompt_no_slash : rustStartsWithSlash longPrompt = false := by
  rw [rustStartsWithSlash]
  rw [show longPrompt.data = List.replicate 10000 'x' from rfl,
    show (10000 : Nat) = 9999 + 1 from rfl, List.replicate_succ]
  rfl

theorem is_slash_command_longPrompt : is_slash_command longPrompt = false := by
  rw [is_slash_command]
  rw [rustTrim_longPrompt, longPrompt_no_slash]
  simp

/-- C2: the stdin feeder selects argument-passing via the `-p` flag exactly
when the trimmed prompt (Unicode-whitespace trim) starts with a slash, has
no embedded newline and is under 256 bytes, in which case stdin is only
closed; otherwise the prompt is written to the child's stdin pipe and stdin
is then closed. "/clear" selects argument-passing (also when padded by a
non-breaking space, which trim strips), the 10,000-character non-slash
prompt selects stdin-piping, and a slash prompt with an embedded newline
selects stdin-piping. -/
theorem slash_routing_c2 :
    (∀ (env : SpawnEnv) (slot : Option Nat) (p : String) (ls : List Line)
        (pid : Nat), env.spawnResult = Except.ok pid →
      (((spawn_claude_process env slot p ls).2.extraArgs = ["-p", p] ∧
        (spawn_claude_process env slot p ls).2.stdinActs =
          [StdinAction.shutdown]) ↔
        (rustStartsWithSlash (rustTrim p) = true ∧
         rustContainsNewline (rustTrim p) = false ∧
         rustByteLen (rustTrim p) < 256)) ∧
      (¬(rustStartsWithSlash (rustTrim p) = true ∧
         rustContainsNewline (rustTrim p) = false ∧
         rustByteLen (rustTrim p) < 256) →
        ((spawn_claude_process env slot p ls).2.extraArgs = [] ∧
         (spawn_claude_process env slot p ls).2.stdinActs =
           [StdinAction.writeAll p, StdinAction.shutdown]))) ∧
    is_slash_command "/clear" = true ∧
    is_slash_command "\u00A0/clear" = true ∧
    is_slash_command longPrompt = false ∧
    is_slash_command "/help\nbody" = false := by
  refine ⟨?_, by decide, by decide, is_slash_command_longPrompt, by decide⟩
  intro env slot p ls pid henv
  have hargs : (spawn_claude_process env slot p ls).2.extraArgs =
      (if is_slash_command p then ["-p", p] else []) := by
    unfold spawn_claude_process
    rw [henv]
  have hacts : (spawn_claude_process env slot p ls).2.stdinActs =
      (if is_slash_command p then [StdinAction.shutdown]
       else [StdinAction.writeAll p, StdinAction.shutdown]) := by
    unfold spawn_claude_process
    rw [henv]
  cases hsl : is_slash_command p
  · rw [hsl] at hargs hacts
    simp only [if_neg Bool.false_ne_true] at hargs hacts
    constructor
    · constructor
      · intro hcontra
        have h1 := hargs.symm.trans hcontra.1
        simp at h1
      · intro hcond
        have := (is_slash_command_iff p).mpr hcond
        rw [hsl] at this
        simp at this
    · intro _
      exact ⟨hargs, hacts⟩
  · rw [hsl] at hargs hacts
    simp only [if_pos rfl] at hargs hacts
    constructor
    · constructor
      · intro _
        exact (is_slash_command_iff p).mp hsl
      · intro _
        exact ⟨hargs, hacts⟩
    · intro hncond
      exact absurd ((is_slash_command_iff p).mp hsl) hncond

/-- Witness: with a successful spawn, the concrete slash prompt "/clear"
takes the argument-passing branch. -/
theorem slash_routing_c2_witness :
    (spawn_claude_process ⟨Except.ok 4, stdEnv⟩ none "/clear" []).2.extraArgs =
        ["-p", "/clear"] ∧
    (spawn_claude_process ⟨Except.ok 4, stdEnv⟩ none "/clear" []).2.stdinActs =
        [StdinAction.shutdown] :=
  ((slash_routing_c2.1 ⟨Except.ok 4, stdEnv⟩ none "/clear" [] 4 rfl).1).mpr
    (by decide)

/-- C4: every cancel call emits the cancelled and complete(false) pair on
the generic channel, additionally the same pair on the session-scoped
channel when a session id was supplied, and returns success to the caller,
for every environment — including one where the session id is unknown to
the registry and no process is found anywhere. -/
theorem cancel_events_c4 :
    (∀ (env : CancelEnv) (sid : String),
      (cancel_claude_execution env (some sid)).events =
        [CEvent.cancelledScoped sid, CEvent.completeScoped sid false,
         CEvent.cancelledGeneric, CEvent.completeGeneric false]) ∧
    (∀ env : CancelEnv,
      (cancel_claude_execution env none).events =
        [CEvent.cancelledGeneric, CEvent.completeGeneric false]) ∧
    (∀ (env : CancelEnv) (sid : Option String),
      (cancel_claude_execution env sid).result = Except.ok ()) :=
  ⟨fun _ _ => rfl, fun _ => rfl, fun _ _ => rfl⟩

/-- A spawn environment whose process spawn fails. -/
def failEnv : SpawnEnv := ⟨Except.error "no such file", stdEnv⟩

/-- C5: when spawning the child fails, the start request returns the error
synchronously, no stdin is fed, no kill or slot update happens (the slot is
unchanged), and the stdout trace is empty: no registry entry, no events. -/
theorem spawn_failure_c5 (env : SpawnEnv) (slot : Option Nat) (p : String)
    (ls : List Line) (e : String) (h : env.spawnResult = Except.error e) :
    (spawn_claude_process env slot p ls).1 =
      Except.error ("Failed to spawn Claude: " ++ e) ∧
    (spawn_claude_process env slot p ls).2.stdoutTrace = [] ∧
    (spawn_claude_process env slot p ls).2.stdinActs = [] ∧
    (spawn_claude_process env slot p ls).2.preKill = [] ∧
    (spawn_claude_process env slot p ls).2.slotAfter = slot := by
  unfold spawn_claude_process
  rw [h]
  exact ⟨rfl, rfl, rfl, rfl, rfl⟩

/-- Witness: a concrete failing spawn returns the error and does nothing
else. -/
theorem spawn_failure_c5_witness :
    (spawn_claude_process failEnv none "hello" []).1 =
      Except.error ("Failed to spawn Claude: " ++ "no such file") ∧
    (spawn_claude_process failEnv none "hello" []).2.stdoutTrace = [] ∧
    (spawn_claude_process failEnv none "hello" []).2.stdinActs = [] ∧
    (spawn_claude_process failEnv none "hello" []).2.preKill = [] ∧
    (spawn_claude_process failEnv none "hello" []).2.slotAfter = none :=
  spawn_failure_c5 failEnv none "hello" [] "no such file" rfl

/-- A spawn environment whose process spawn succeeds with pid 9. -/
def okEnv : SpawnEnv := ⟨Except.ok 9, stdEnv⟩

/-- C9: the legacy slot holds at most one process; a successful start kills
the occupant (exactly the previous slot content) and then installs the new
child, last-writer-wins. -/
theorem legacy_slot_c9 (env : SpawnEnv) (slot : Option Nat) (p : String)
    (ls : List Line) (pid : Nat) (h : env.spawnResult = Except.ok pid) :
    (spawn_claude_process env slot p ls).2.slotAfter = some pid ∧
    (spawn_claude_process env slot p ls).2.preKill = slot.toList ∧
    (∀ old, slot = some old →
      (spawn_claude_process env slot p ls).2.preKill = [old]) ∧
    (spawn_claude_process env slot p ls).2.slotAfter.toList.length ≤ 1 := by
  unfold spawn_claude_process
  rw [h]
  refine ⟨rfl, rfl, ?_, by simp⟩
  rintro old rfl
  rfl

/-- Witness: starting with pid 9 while pid 7 occupies the slot kills 7 and
installs 9. -/
theorem legacy_slot_c9_witness :
    (spawn_claude_process okEnv (some 7) "hi" []).2.slotAfter = some 9 ∧
    (spawn_claude_process okEnv (some 7) "hi" []).2.preKill = [7] :=
  ⟨(legacy_slot_c9 okEnv (some 7) "hi" [] 9 rfl).1,
   (legacy_slot_c9 okEnv (some 7) "hi" [] 9 rfl).2.2.1 7 rfl⟩

/-- C6: resume returns directly on success; on failure it falls back to the
continue command exactly once, surfacing the fallback's own result (its
error if it also fails); the continue command's arguments start with the
`-c` flag. -/
theorem resume_fallback_c6 (env : ResumeEnv) (sid : String) :
    (env.resumeSpawn = Except.ok () →
      resume_claude_code env sid = (Except.ok (), [LaunchMode.resumeMode sid])) ∧
    (∀ e, env.resumeSpawn = Except.error e →
      resume_claude_code env sid =
        (env.continueSpawn,
         [LaunchMode.resumeMode sid, LaunchMode.continueMode])) ∧
    (∀ baseArgs, continue_args baseArgs = "-c" :: baseArgs) := by
  refine ⟨?_, ?_, fun _ => rfl⟩
  · intro h
    unfold resume_claude_code
    rw [h]
  · intro e h
    unfold resume_claude_code
    rw [h]
    rfl

/-- A resume environment where the resume spawn fails and the continue
fallback succeeds. -/
def resumeFailEnv : ResumeEnv := ⟨Except.error "resume gone", Except.ok ()⟩

/-- Witness: a failed resume retries once as continue and reports the
fallback's success. -/
theorem resume_fallback_c6_witness :
    resume_claude_code resumeFailEnv "sess1" =
      (Except.ok (), [LaunchMode.resumeMode "sess1", LaunchMode.continueMode]) :=
  (resume_fallback_c6 resumeFailEnv "sess1").2.1 "resume gone" rfl

/-- A cancel environment: registry lookup finds nothing, the legacy child's
kill fails with an already-exited error and its pid 42 is known, the
platform kill succeeds. -/
def tierEnvC3 : CancelEnv :=
  ⟨fun _ => Except.ok none, fun _ => Except.ok false,
   some ⟨some 42, Except.error ⟨true⟩⟩, fun _ => true⟩

/-- C3 counterexample: the legacy child exists, its kill error says the
process had already exited, yet the coordinator still attempts the OS-level
process-group kill of pid 42 — the code never inspects the kill error's
reason, against the claim that the OS kill runs only when the handle is
unavailable or the kill failed for a reason other than already exited. -/
theorem cancel_tier3_c3_counterexample :
    (cancel_claude_execution tierEnvC3 (some "s")).strategies =
      [Strategy.legacyKill, Strategy.osKill 42] ∧
    tierEnvC3.legacySlot = some ⟨some 42, Except.error ⟨true⟩⟩ :=
  ⟨rfl, rfl⟩

theorem registryTier_shape (env : CancelEnv) (sido : Option String) :
    ∀ s ∈ (registryTier env sido).2, ∃ rid, s = Strategy.registryKill rid := by
  rcases sido with _ | sid
  · simp [registryTier]
  · unfold registryTier
    rcases hl : env.registryLookup sid with e | oinfo
    · simp [hl]
    · rcases oinfo with _ | info
      · simp [hl]
      · rcases hk : env.registryKill info.run_id with e | b <;> simp [hl, hk]

theorem registryTier_no_legacy (env : CancelEnv) (sido : Option String) :
    Strategy.legacyKill ∉ (registryTier env sido).2 := by
  intro h
  obtain ⟨rid, heq⟩ := registryTier_shape env sido _ h
  exact Strategy.noConfusion heq

theorem registryTier_no_os (env : CancelEnv) (sido : Option String) (p : Nat) :
    Strategy.osKill p ∉ (registryTier env sido).2 := by
  intro h
  obtain ⟨rid, heq⟩ := registryTier_shape env sido _ h
  exact Strategy.noConfusion heq

theorem legacyTier_shape (env : CancelEnv) :
    (legacyTier env).2 = [] ∨ (legacyTier env).2 = [Strategy.legacyKill] ∨
      ∃ p, (legacyTier env).2 = [Strategy.legacyKill, Strategy.osKill p] := by
  unfold legacyTier
  rcases env.legacySlot with _ | child
  · exact Or.inl rfl
  · obtain ⟨cpid, ckill⟩ := child
    rcases ckill with e | u
    · rcases cpid with _ | pid
      · exact Or.inr (Or.inl rfl)
      · exact Or.inr (Or.inr ⟨pid, rfl⟩)
    · exact Or.inr (Or.inl rfl)

theorem legacyTier_mem_legacy (env : CancelEnv) :
    Strategy.legacyKill ∈ (legacyTier env).2 ↔ env.legacySlot ≠ none := by
  unfold legacyTier
  rcases hs : env.legacySlot with _ | child
  · simp
  · obtain ⟨cpid, ckill⟩ := child
    rcases ckill with e | u
    · rcases cpid with _ | pid <;> simp
    · simp

theorem legacyTier_mem_os (env : CancelEnv) (p : Nat) :
    Strategy.osKill p ∈ (legacyTier env).2 ↔
      ∃ c, env.legacySlot = some c ∧ c.pid = some p ∧
        ∃ err, c.killResult = Except.error err := by
  unfold legacyTier
  rcases hs : env.legacySlot with _ | child
  · simp
  · obtain ⟨cpid, ckill⟩ := child
    rcases ckill with e | u
    · rcases cpid with _ | pid <;> simp [eq_comm]
    · simp

/-- C3 (amended): the coordinator returns success to the caller in every
case; its strategies come in escalating order — registry kills first, then
at most one legacy kill followed by at most one OS kill; the legacy tier
runs exactly when the registry tier did not report success and the slot was
occupied; and the OS process-group kill runs exactly when additionally the
legacy child's kill returned an error of any kind (the error's reason,
including "already exited", is never inspected) and its pid was known. -/
theorem cancel_escalation_c3 (env : CancelEnv) (sido : Option String) :
    (cancel_claude_execution env sido).result = Except.ok () ∧
    (∃ r t, (cancel_claude_execution env sido).strategies = r ++ t ∧
      (∀ s ∈ r, ∃ rid, s = Strategy.registryKill rid) ∧
      (t = [] ∨ t = [Strategy.legacyKill] ∨
        ∃ p, t = [Strategy.legacyKill, Strategy.osKill p])) ∧
    (Strategy.legacyKill ∈ (cancel_claude_execution env sido).strategies ↔
      ((registryTier env sido).1 = false ∧ env.legacySlot ≠ none)) ∧
    (∀ p, Strategy.osKill p ∈ (cancel_claude_execution env sido).strategies ↔
      ((registryTier env sido).1 = false ∧
        ∃ c, env.legacySlot = some c ∧ c.pid = some p ∧
          ∃ err, c.killResult = Except.error err)) := by
  have hstr : (cancel_claude_execution env sido).strategies =
      (registryTier env sido).2 ++
        (if (registryTier env sido).1 then [] else (legacyTier env).2) := by
    unfold cancel_claude_execution
    cases h1 : (registryTier env sido).1 <;> simp [h1]
  refine ⟨rfl, ?_, ?_, ?_⟩
  · refine ⟨(registryTier env sido).2,
      (if (registryTier env sido).1 then [] else (legacyTier env).2), hstr,
      registryTier_shape env sido, ?_⟩
    cases h1 : (registryTier env sido).1
    · simpa [h1] using legacyTier_shape env
    · simp [h1]
  · rw [hstr]
    cases h1 : (registryTier env sido).1 <;>
      simp [h1, List.mem_append, registryTier_no_legacy env sido,
        legacyTier_mem_legacy env]
  · intro p
    rw [hstr]
    cases h1 : (registryTier env sido).1 <;>
      simp [h1, List.mem_append, registryTier_no_os env sido p,
        legacyTier_mem_os env p]

/-- Witness: on the concrete environment the call reports success and the
legacy kill was attempted because the registry tier did not succeed and the
slot was occupied. -/
theorem cancel_escalation_c3_witness :
    (cancel_claude_execution tierEnvC3 none).result = Except.ok () ∧
    (Strategy.legacyKill ∈ (cancel_claude_execution tierEnvC3 none).strategies ↔
      ((registryTier tierEnvC3 none).1 = false ∧ tierEnvC3.legacySlot ≠ none)) :=
  ⟨(cancel_escalation_c3 tierEnvC3 none).1,
   (cancel_escalation_c3 tierEnvC3 none).2.2.1⟩

end AnyCode
